import Mathlib

/-!
Renderer of the voxel engine (`src/renderer.cpp`).

A shallow embedding of `Renderer::Renderer`, `Renderer::init`, `Renderer::update`,
`Renderer::render` and `Renderer::render_ui`.

* The C++ type `float` is a type parameter `F`; its arithmetic (`-`, `+`, `*`, `/`, unary
  minus, decimal literals, conversion from `int`) is supplied by the usual type classes, so
  every result holds for any interpretation of float arithmetic.
* `glm::mat4` is a type parameter `M`; the GLM functions the renderer calls are fields of
  `Host`.
* The object behind the `Window*` member is held by value in the renderer state; writing
  through the pointer is updating that field.
* Calls into OpenGL, the shader wrapper, the model wrapper and Dear ImGui are recorded, in
  program order, as a list of `Call`s returned next to the new state.
* Process termination and undefined behaviour are results `Except.error` of type `Fault`.
-/

namespace VoxelEngine

/-- A `glm::vec3`: three floats. -/
structure Vec3 (F : Type) where
  x : F
  y : F
  z : F
deriving DecidableEq, Repr

/-- The constructor `glm::vec3(s)` with one scalar: all three components are `s`. -/
def Vec3.splat {F : Type} (s : F) : Vec3 F := ⟨s, s, s⟩

/-- Component-wise `operator+` of `glm::vec3`. -/
def Vec3.add {F : Type} [Add F] (a b : Vec3 F) : Vec3 F := ⟨a.x + b.x, a.y + b.y, a.z + b.z⟩

/-- Modelled from the spec: the window-state struct (`window->state`, declared in the absent
`window.h`), with the fields that `renderer.cpp` reads or writes. -/
structure WindowState (F : Type) where
  curr_time : F
  prev_time : F
  delta_time : F
  camera_pos : Vec3 F
  camera_front : Vec3 F
  camera_up : Vec3 F
  fov : F
  pitch : F
  yaw : F
  last_x : Int
  last_y : Int
  camera_speed : F
  camera_sensitivity : F
  shininess : F
  dirlight_ambient : Vec3 F
  dirlight_diffuse : Vec3 F
  dirlight_specular : Vec3 F
  pointlight_ambient : Vec3 F
  pointlight_diffuse : Vec3 F
  pointlight_specular : Vec3 F
  spotlight_ambient : Vec3 F
  spotlight_diffuse : Vec3 F
  spotlight_specular : Vec3 F
  cutoff : F
  outer_cutoff : F
  show_debug : Bool
deriving DecidableEq, Repr

/-- Modelled from the spec: the `Window` abstraction (declared in the absent `window.h`): a
native handle `ptr`, the size, and the window state. -/
structure Window (F : Type) where
  ptr : Nat
  width : Int
  height : Int
  state : WindowState F
deriving DecidableEq, Repr

/-- Modelled from the spec: a `Shader` (declared in the absent `shader.h`), identified by the
two source paths given to its constructor. -/
structure Shader where
  vertex_path : String
  fragment_path : String
deriving DecidableEq, Repr

/-- Modelled from the spec: a `Texture` (declared in the absent `texture.h`): the image path
given to its constructor and the texture index the constructor assigned. -/
structure Texture where
  path : String
  index : Int
deriving DecidableEq, Repr

/-- Modelled from the spec: a `Mesh` (declared in the absent `mesh.h`); the only mesh the
renderer builds itself is the result of `Mesh::generate_cube_mesh()`. -/
inductive Mesh where
  | generate_cube_mesh
deriving DecidableEq, Repr

/-- Modelled from the spec: a `Model` (declared in the absent `model.h`): the asset path given
to its constructor (`none` for the default constructor; the meshes parsed from that file stay
behind the path) and the meshes appended with `add_mesh`, oldest first. -/
structure Model where
  path : Option String
  meshes : List Mesh
deriving DecidableEq, Repr

/-- Modelled from the spec: `Model::Model(path)`, loading a model from an asset file. -/
def Model.load (path : String) : Model := { path := some path, meshes := [] }

/-- Modelled from the spec: the default constructor `Model::Model()`, a model with no mesh. -/
def Model.empty : Model := { path := none, meshes := [] }

/-- Modelled from the spec: `Model::add_mesh`, appending one mesh to the model. -/
def Model.add_mesh (m : Model) (mesh : Mesh) : Model := { m with meshes := m.meshes ++ [mesh] }

/-- One element of `Renderer::model_objects`: the aggregate `{shader, model}`. -/
structure ModelObject where
  shader : Shader
  model : Model
deriving DecidableEq, Repr

/-- A value passed to `Shader::set`. -/
inductive Uniform (F M : Type) where
  | int (i : Int)
  | float (x : F)
  | vec3 (v : Vec3 F)
  | mat4 (m : M)
deriving DecidableEq, Repr

/-- An argument of a recorded Dear ImGui call. -/
inductive ImArg (F : Type) where
  | str (s : String)
  | num (x : F)
  | int (i : Int)
  | vec (v : Vec3 F)
  | flag (b : Bool)
deriving DecidableEq, Repr

/-- A call that leaves the renderer: into the shader and model wrappers, OpenGL or Dear
ImGui. -/
inductive Call (F M : Type) where
  | shader_use (s : Shader)
  | shader_set (s : Shader) (name : String) (v : Uniform F M)
  | model_draw (m : Model) (s : Shader)
  | glClearColor (r g b a : F)
  | glClear (mask : Nat)
  | glEnable (cap : Nat)
  | imgui (fn : String) (args : List (ImArg F))
deriving DecidableEq, Repr

/-- `GL_COLOR_BUFFER_BIT` of the OpenGL headers. -/
def GL_COLOR_BUFFER_BIT : Nat := 0x00004000

/-- `GL_DEPTH_BUFFER_BIT` of the OpenGL headers. -/
def GL_DEPTH_BUFFER_BIT : Nat := 0x00000100

/-- `GL_DEPTH_TEST` of the OpenGL headers. -/
def GL_DEPTH_TEST : Nat := 0x0B71

/-- What the renderer takes from outside `renderer.cpp`: the GLM functions it calls, over floats
`F` and matrices `M`, and the texture index that `Texture(path)` assigns (`texture.h` is
absent). -/
structure Host (F M : Type) where
  radians : F → F
  cos : F → F
  mat4 : F → M
  translate : M → Vec3 F → M
  scale : M → Vec3 F → M
  lookAt : Vec3 F → Vec3 F → Vec3 F → M
  perspective : F → F → F → F → M
  texture_index : String → Int

/-- What the user does to the Dear ImGui widgets during one `render_ui`: the value each widget
leaves in the variable it is bound to, and the width the debug window reports. -/
structure ImGuiInput (F : Type) where
  window_width : F
  begin_open : String → Bool → Bool
  slider_float : String → F → F → F → F
  color_edit3 : String → Vec3 F → Vec3 F

/-- The ways an operation ends other than by returning. -/
inductive Fault where
  | terminate (msg : String)
  | out_of_bounds
deriving DecidableEq, Repr

/-- Modelled from the spec: the members of `Renderer` (declared in the absent `renderer.h`):
the window reached through `Window* window`, and the vector `model_objects`. -/
structure Renderer (F : Type) where
  window : Window F
  model_objects : List ModelObject
deriving DecidableEq, Repr

/-- The constructor `Renderer::Renderer(Window* window)`. The argument is `none` for a null
pointer and `some w` for a pointer to the window `w`. The vector member is default-initialised,
hence empty. -/
def Renderer.new {F : Type} (window : Option (Window F)) : Except Fault (Renderer F) :=
  match window with
  | some w => .ok { window := w, model_objects := [] }
  | none => .error (.terminate "Invalid Window* passed into Renderer constructor")

section Operations

variable {F M : Type}

/-- The constructor `Texture(path)`: the index is the one the host assigns to that image. -/
def Texture.load (h : Host F M) (path : String) : Texture :=
  { path := path, index := h.texture_index path }

/-- The Dear ImGui and backend set-up at the end of `Renderer::init` (lines 33-43). -/
def init_imgui_calls (w : Window F) : List (Call F M) :=
  [ .imgui "IMGUI_CHECKVERSION" [],
    .imgui "ImGui::CreateContext" [],
    .imgui "ImGui::GetIO" [],
    .imgui "io.ConfigFlags |=" [.str "ImGuiConfigFlags_NavEnableKeyboard"],
    .imgui "io.ConfigFlags |=" [.str "ImGuiConfigFlags_NavEnableGamepad"],
    .imgui "io.ConfigFlags |=" [.str "ImGuiConfigFlags_DockingEnable"],
    .imgui "ImGui_ImplGlfw_InitForOpenGL" [.int (w.ptr : Int), .flag true],
    .imgui "ImGui_ImplOpenGL3_Init" [] ]

/-- The method `Renderer::init()`: the new state and the calls issued. -/
def Renderer.init (h : Host F M) (r : Renderer F) : Renderer F × List (Call F M) :=
  -- backpack model
  let shader : Shader :=
    ⟨"assets/shaders/model_vertex.glsl", "assets/shaders/model_fragment.glsl"⟩
  let bag_model := Model.load "assets/models/backpack/backpack.obj"
  let objs1 := r.model_objects ++ [⟨shader, bag_model⟩]
  -- container model
  let container_shader : Shader :=
    ⟨"assets/shaders/vertex.glsl", "assets/shaders/box_fragment.glsl"⟩
  let container_texture := Texture.load h "assets/textures/container2.png"
  let specular_map := Texture.load h "assets/textures/container2_specular.png"
  let calls1 : List (Call F M) :=
    [ .shader_use container_shader,
      .shader_set container_shader "material.diffuse" (.int container_texture.index),
      .shader_set container_shader "material.specular" (.int specular_map.index) ]
  let cube_model := Model.empty.add_mesh Mesh.generate_cube_mesh
  let objs2 := objs1 ++ [⟨container_shader, cube_model⟩]
  ({ r with model_objects := objs2 }, calls1 ++ init_imgui_calls r.window)

/-- The array `pointLightPositions` of `Renderer::update` (lines 55-60). -/
def pointLightPositions [Neg F] [OfScientific F] : Fin 4 → Vec3 F
  | 0 => ⟨0.7, 0.2, 2.0⟩
  | 1 => ⟨2.3, -3.3, -4.0⟩
  | 2 => ⟨-4.0, 2.0, -12.0⟩
  | 3 => ⟨0.0, 0.0, -3.0⟩

/-- One iteration `i` of the point-light loop of `Renderer::update` (lines 77-84). -/
def point_light_calls [Neg F] [OfScientific F] (s : Shader) (st : WindowState F) (i : Fin 4) :
    List (Call F M) :=
  let pointLight := "pointLights[" ++ toString i.val ++ "]"
  [ .shader_set s (pointLight ++ ".position") (.vec3 (pointLightPositions i)),
    .shader_set s (pointLight ++ ".ambient") (.vec3 st.pointlight_ambient),
    .shader_set s (pointLight ++ ".diffuse") (.vec3 st.pointlight_diffuse),
    .shader_set s (pointLight ++ ".specular") (.vec3 st.pointlight_specular),
    .shader_set s (pointLight ++ ".constant") (.float 1.0),
    .shader_set s (pointLight ++ ".linear") (.float 0.09),
    .shader_set s (pointLight ++ ".quadratic") (.float 0.032) ]

/-- The uniform uploads of `Renderer::update` (lines 63-97) to the shader `s`, reading the
window state `st`. -/
def lighting_calls [Neg F] [OfScientific F] (h : Host F M) (s : Shader) (st : WindowState F) :
    List (Call F M) :=
  let light_dir : Vec3 F := ⟨-0.2, -1.0, -0.3⟩
  [ .shader_use s,
    .shader_set s "material.shininess" (.float st.shininess),
    -- directional lights
    .shader_set s "dirLight.direction" (.vec3 light_dir),
    .shader_set s "dirLight.ambient" (.vec3 st.dirlight_ambient),
    .shader_set s "dirLight.diffuse" (.vec3 st.dirlight_diffuse),
    .shader_set s "dirLight.specular" (.vec3 st.dirlight_specular),
    .shader_set s "viewPos" (.vec3 st.camera_pos) ]
  -- point lights: for (int i = 0; i < 4; i++)
  ++ (List.finRange 4).flatMap (point_light_calls s st)
  -- spotlight
  ++ [ .shader_set s "spotLight.position" (.vec3 st.camera_pos),
       .shader_set s "spotLight.direction" (.vec3 st.camera_front),
       .shader_set s "spotLight.cutoff" (.float (h.cos (h.radians st.cutoff))),
       .shader_set s "spotLight.outerCutoff" (.float (h.cos (h.radians st.outer_cutoff))),
       .shader_set s "spotLight.ambient" (.vec3 st.spotlight_ambient),
       .shader_set s "spotLight.diffuse" (.vec3 st.spotlight_diffuse),
       .shader_set s "spotLight.specular" (.vec3 st.spotlight_specular),
       .shader_set s "spotLight.constant" (.float 1.0),
       .shader_set s "spotLight.linear" (.float 0.09),
       .shader_set s "spotLight.quadratic" (.float 0.032) ]

/-- The method `Renderer::update()`. The argument `t` is the value of `glfwGetTime()` as stored
in the local `float curr_time` (line 48). The unchecked `model_objects[1]` (line 62) past the
end of the vector is the fault `out_of_bounds`. -/
def Renderer.update [Sub F] [Neg F] [OfScientific F] (h : Host F M) (t : F) (r : Renderer F) :
    Except Fault (Renderer F × List (Call F M)) :=
  let prev_time := r.window.state.curr_time
  let curr_time := t
  let delta_time := curr_time - prev_time
  let state := { r.window.state with
    curr_time := curr_time, prev_time := prev_time, delta_time := delta_time }
  let r1 : Renderer F := { r with window := { r.window with state := state } }
  match r1.model_objects[1]? with
  | none => .error .out_of_bounds
  | some object => .ok (r1, lighting_calls h object.shader r1.window.state)

/-- The window state in which only the three time fields of `st` are replaced: the clock
reading `t`, the previous `curr_time`, and their difference. -/
def updated_state [Sub F] (t : F) (st : WindowState F) : WindowState F :=
  { st with curr_time := t, prev_time := st.curr_time, delta_time := t - st.curr_time }

/-- The body of the range-for loop of `Renderer::render` (lines 117-124) over the remaining
objects. -/
def render_objects (model view projection : M) : List ModelObject → List (Call F M)
  | [] => []
  | object :: rest =>
      [ .shader_use object.shader,
        .shader_set object.shader "model" (.mat4 model),
        .shader_set object.shader "view" (.mat4 view),
        .shader_set object.shader "projection" (.mat4 projection),
        .model_draw object.model object.shader ]
      ++ render_objects model view projection rest

/-- The method `Renderer::render()`: the new state and the calls issued. -/
def Renderer.render [Add F] [Div F] [OfScientific F] [IntCast F] (h : Host F M)
    (r : Renderer F) : Renderer F × List (Call F M) :=
  let model := h.mat4 1.0
  let model := h.translate model (Vec3.splat 1.0)
  let model := h.scale model (Vec3.splat 1.0)
  let view := h.lookAt r.window.state.camera_pos
    (r.window.state.camera_pos.add r.window.state.camera_front) r.window.state.camera_up
  let aspect_ratio : F := (r.window.width : F) / (r.window.height : F)
  let projection := h.perspective (h.radians r.window.state.fov) aspect_ratio 0.1 100.0
  (r, [ .glClearColor 0.05 0.05 0.05 1.0,
        .glClear (GL_COLOR_BUFFER_BIT ||| GL_DEPTH_BUFFER_BIT),
        .glEnable GL_DEPTH_TEST ]
      ++ render_objects model view projection r.model_objects)

/-- A recorded `ImGui::Text(fmt, ...)`. -/
def im_text (fmt : String) (args : List (ImArg F)) : Call F M :=
  .imgui "ImGui::Text" (.str fmt :: args)

/-- A recorded `ImGui::SliderFloat(label, &v, lo, hi, fmt)`, with the value `v` it is shown. -/
def im_slider (label : String) (v lo hi : F) (fmt : String) : Call F M :=
  .imgui "ImGui::SliderFloat" [.str label, .num v, .num lo, .num hi, .str fmt]

/-- A recorded `ImGui::ColorEdit3(label, &v[0])`, with the colour `v` it is shown. -/
def im_color (label : String) (v : Vec3 F) : Call F M :=
  .imgui "ImGui::ColorEdit3" [.str label, .vec v]

/-- The debug menu of `Renderer::render_ui` (lines 137-186), run when `show_debug` is set:
the window state the widgets leave behind and the calls issued. -/
def debug_menu [Neg F] [Mul F] [OfScientific F] (ui : ImGuiInput F) (fps : F)
    (s0 : WindowState F) : WindowState F × List (Call F M) :=
  -- each widget edits its own field of the window state
  let s1 : WindowState F := { s0 with
    show_debug := ui.begin_open "Debug Menu" s0.show_debug,
    camera_speed := ui.slider_float "##CameraSpeed" s0.camera_speed 0.1 10.0,
    camera_sensitivity :=
      ui.slider_float "##CameraSensitivity" s0.camera_sensitivity 0.01 1.0,
    dirlight_ambient := ui.color_edit3 "##DirLightAmbient" s0.dirlight_ambient,
    dirlight_diffuse := ui.color_edit3 "##DirLightDiffuse" s0.dirlight_diffuse,
    dirlight_specular := ui.color_edit3 "##DirLightSpecular" s0.dirlight_specular,
    pointlight_ambient := ui.color_edit3 "##PointLightAmbient" s0.pointlight_ambient,
    pointlight_diffuse := ui.color_edit3 "##PointLightDiffuse" s0.pointlight_diffuse,
    pointlight_specular := ui.color_edit3 "##PointLightSpecular" s0.pointlight_specular,
    spotlight_ambient := ui.color_edit3 "##SpotLightAmbient" s0.spotlight_ambient,
    spotlight_diffuse := ui.color_edit3 "##SpotLightDiffuse" s0.spotlight_diffuse,
    spotlight_specular := ui.color_edit3 "##SpotLightSpecular" s0.spotlight_specular,
    cutoff := ui.slider_float "##Cutoff" s0.cutoff 0.1 90.0,
    outer_cutoff := ui.slider_float "##OuterCutoff" s0.outer_cutoff 0.1 90.0,
    shininess := ui.slider_float "##Shininess" s0.shininess 0.1 256.0 }
  (s1,
    [ .imgui "ImGui::ShowDemoWindow" [],
      .imgui "ImGui::Begin" [.str "Debug Menu", .flag s0.show_debug],
      .imgui "ImGui::GetWindowWidth" [],
      .imgui "ImGui::PushItemWidth" [.num ((-ui.window_width) * 0.003)],
      im_text "Frame Time: %.1f ms (%.1f FPS)" [.num (s0.delta_time * 1000.0), .num fps],
      im_text "Last mouse position: (%d, %d)" [.int s0.last_x, .int s0.last_y],
      im_text "Pitch: %.1f, Yaw: %.1f" [.num s0.pitch, .num s0.yaw],
      im_text "FOV: %.1f" [.num s0.fov],
      im_text "Camera Direction: (%.3f, %.3f, %.3f)"
        [.num s0.camera_front.x, .num s0.camera_front.y, .num s0.camera_front.z],
      .imgui "ImGui::SeparatorText" [.str "Settings"],
      im_text "Camera Speed" [],
      im_slider "##CameraSpeed" s0.camera_speed 0.1 10.0 "%.1f",
      im_text "Camera Sensitivity" [],
      im_slider "##CameraSensitivity" s0.camera_sensitivity 0.01 1.0 "%.2f",
      im_text "Dir Light Ambient" [],
      im_color "##DirLightAmbient" s0.dirlight_ambient,
      im_text "Dir Light Diffuse" [],
      im_color "##DirLightDiffuse" s0.dirlight_diffuse,
      im_text "Dir Light Specular" [],
      im_color "##DirLightSpecular" s0.dirlight_specular,
      im_text "Point Light Ambient" [],
      im_color "##PointLightAmbient" s0.pointlight_ambient,
      im_text "Point Light Diffuse" [],
      im_color "##PointLightDiffuse" s0.pointlight_diffuse,
      im_text "Point Light Specular" [],
      im_color "##PointLightSpecular" s0.pointlight_specular,
      im_text "Spot Light Ambient" [],
      im_color "##SpotLightAmbient" s0.spotlight_ambient,
      im_text "Spot Light Diffuse" [],
      im_color "##SpotLightDiffuse" s0.spotlight_diffuse,
      im_text "Spot Light Specular" [],
      im_color "##SpotLightSpecular" s0.spotlight_specular,
      im_text "Spot Light Cutoff" [],
      im_slider "##Cutoff" s0.cutoff 0.1 90.0 "%.1f",
      im_text "Spot Light Outer Cutoff" [],
      im_slider "##OuterCutoff" s0.outer_cutoff 0.1 90.0 "%.1f",
      im_text "Material Shininess" [],
      im_slider "##Shininess" s0.shininess 0.1 256.0 "%.1f",
      .imgui "ImGui::PopItemWidth" [],
      .imgui "ImGui::End" [] ])

/-- The method `Renderer::render_ui()`: the new state and the calls issued. -/
def Renderer.render_ui [Neg F] [Mul F] [Div F] [OfScientific F] (ui : ImGuiInput F)
    (r : Renderer F) : Renderer F × List (Call F M) :=
  let fps : F := 1.0 / r.window.state.delta_time
  let pre : List (Call F M) :=
    [ .imgui "ImGui_ImplOpenGL3_NewFrame" [],
      .imgui "ImGui_ImplGlfw_NewFrame" [],
      .imgui "ImGui::NewFrame" [],
      .imgui "ImGui::DockSpaceOverViewport"
        [.int 0, .str "nullptr", .str "ImGuiDockNodeFlags_PassthruCentralNode"] ]
  let post : List (Call F M) :=
    [ .imgui "ImGui::Render" [],
      .imgui "ImGui::GetDrawData" [],
      .imgui "ImGui_ImplOpenGL3_RenderDrawData" [] ]
  if r.window.state.show_debug then
    let (state, menu) := debug_menu ui fps r.window.state
    ({ r with window := { r.window with state := state } }, pre ++ menu ++ post)
  else
    (r, pre ++ post)

/-- The operations a caller can apply to a constructed renderer; `update` carries the clock
reading of that call and `render_ui` the user's interaction with the widgets. -/
inductive Op (F : Type) where
  | init
  | update (t : F)
  | render
  | render_ui (ui : ImGuiInput F)

/-- Whether an operation is a call of `init()`. -/
def Op.is_init : Op F → Bool
  | .init => true
  | _ => false

/-- Whether an operation is a call of `update()`. -/
def Op.is_update : Op F → Bool
  | .update _ => true
  | _ => false

/-- Whether a call is the framebuffer clear `glClear`. -/
def Call.is_clear : Call F M → Bool
  | .glClear _ => true
  | _ => false

/-- Whether a call is a draw call `Model::draw`. -/
def Call.is_draw : Call F M → Bool
  | .model_draw _ _ => true
  | _ => false

/-- The shader a call is addressed to, if it is a call on a shader. -/
def Call.target : Call F M → Option Shader
  | .shader_use s => some s
  | .shader_set s _ _ => some s
  | _ => none

/-- The model and shader of a draw call. -/
def Call.drawn : Call F M → Option (Model × Shader)
  | .model_draw m s => some (m, s)
  | _ => none

/-- The calls the loop body of `render()` issues for one object, given the three matrices. -/
def object_calls (model view projection : M) (object : ModelObject) : List (Call F M) :=
  [ .shader_use object.shader,
    .shader_set object.shader "model" (.mat4 model),
    .shader_set object.shader "view" (.mat4 view),
    .shader_set object.shader "projection" (.mat4 projection),
    .model_draw object.model object.shader ]

variable [Add F] [Sub F] [Mul F] [Div F] [Neg F] [OfScientific F] [IntCast F]

/-- One operation applied to a renderer. -/
def Renderer.step (h : Host F M) (op : Op F) (r : Renderer F) :
    Except Fault (Renderer F × List (Call F M)) :=
  match op with
  | .init => .ok (r.init h)
  | .update t => r.update h t
  | .render => .ok (r.render h)
  | .render_ui ui => .ok (r.render_ui ui)

/-- A sequence of operations applied in order, stopping at the first fault; the calls of the
operations are concatenated. -/
def Renderer.run (h : Host F M) : List (Op F) → Renderer F →
    Except Fault (Renderer F × List (Call F M))
  | [], r => .ok (r, [])
  | op :: ops, r =>
    match r.step h op with
    | .error e => .error e
    | .ok (r1, calls1) =>
      match Renderer.run h ops r1 with
      | .error e => .error e
      | .ok (r2, calls2) => .ok (r2, calls1 ++ calls2)

end Operations

/-! Test values. -/

section Demo

/-- A host over the rationals: matrices are lists of the numbers they were built from. -/
def demoHost : Host ℚ (List ℚ) where
  radians x := x
  cos x := x
  mat4 s := [s]
  translate m v := m ++ [v.x, v.y, v.z]
  scale m v := m ++ [v.x, v.y, v.z]
  lookAt e c u := [e.x, e.y, e.z, c.x, c.y, c.z, u.x, u.y, u.z]
  perspective f a n z := [f, a, n, z]
  texture_index p := p.length

/-- A window state with every number zero except the times. -/
def demoState : WindowState ℚ where
  curr_time := 5
  prev_time := 3
  delta_time := 2
  camera_pos := ⟨0, 0, 3⟩
  camera_front := ⟨0, 0, -1⟩
  camera_up := ⟨0, 1, 0⟩
  fov := 45
  pitch := 0
  yaw := -90
  last_x := 400
  last_y := 300
  camera_speed := 5 / 2
  camera_sensitivity := 1 / 10
  shininess := 32
  dirlight_ambient := ⟨0, 0, 0⟩
  dirlight_diffuse := ⟨0, 0, 0⟩
  dirlight_specular := ⟨0, 0, 0⟩
  pointlight_ambient := ⟨0, 0, 0⟩
  pointlight_diffuse := ⟨1, 1, 1⟩
  pointlight_specular := ⟨1, 1, 1⟩
  spotlight_ambient := ⟨0, 0, 0⟩
  spotlight_diffuse := ⟨1, 1, 1⟩
  spotlight_specular := ⟨1, 1, 1⟩
  cutoff := 25 / 2
  outer_cutoff := 15
  show_debug := true

/-- A window of 800 by 600 pixels. -/
def demoWindow : Window ℚ := { ptr := 1, width := 800, height := 600, state := demoState }

/-- The renderer constructed on `demoWindow`, before `init()`. -/
def demoFresh : Renderer ℚ := { window := demoWindow, model_objects := [] }

/-- The renderer constructed on `demoWindow`, after one `init()`. -/
def demoReady : Renderer ℚ := (demoFresh.init demoHost).1

/-- A user who leaves every widget as it is. -/
def demoIdle : ImGuiInput ℚ where
  window_width := 300
  begin_open _ b := b
  slider_float _ v _ _ := v
  color_edit3 _ v := v

/-- Two frames drawn without `init()`. -/
def demoFrames : List (Op ℚ) := [.render, .render_ui demoIdle, .render, .render_ui demoIdle]

/-- The usual life of a renderer: `init()`, then one frame. -/
def demoSession : List (Op ℚ) := [.init, .update 7, .render, .render_ui demoIdle]

end Demo

/-! Properties of the operations. -/

section Lemmas

variable {F M : Type}

/-- What `init()` does to the list: it appends the backpack object and the container object. -/
lemma init_model_objects (h : Host F M) (r : Renderer F) :
    (r.init h).1.model_objects = r.model_objects ++
      [ ⟨⟨"assets/shaders/model_vertex.glsl", "assets/shaders/model_fragment.glsl"⟩,
          Model.load "assets/models/backpack/backpack.obj"⟩,
        ⟨⟨"assets/shaders/vertex.glsl", "assets/shaders/box_fragment.glsl"⟩,
          Model.empty.add_mesh Mesh.generate_cube_mesh⟩ ] := by
  simp [Renderer.init]

/-- The method `init()` adds two entries to the list. -/
lemma init_length (h : Host F M) (r : Renderer F) :
    (r.init h).1.model_objects.length = r.model_objects.length + 2 := by
  rw [init_model_objects]; simp

/-- The method `update()` returns when the list has an entry at index 1: the result. -/
lemma update_ok_of_two [Sub F] [Neg F] [OfScientific F] (h : Host F M) (t : F)
    (r : Renderer F) (h2 : 2 ≤ r.model_objects.length) :
    ∃ o, r.model_objects[1]? = some o ∧
      r.update h t = .ok
        ({ window := { r.window with state := updated_state t r.window.state },
           model_objects := r.model_objects },
         lighting_calls h o.shader (updated_state t r.window.state)) := by
  obtain ⟨w, objs⟩ := r
  match objs, h2 with
  | a :: b :: rest, _ => exact ⟨b, by simp, by simp [Renderer.update, updated_state]⟩

/-- The method `update()` faults when the list has fewer than two entries. -/
lemma update_error_of_lt_two [Sub F] [Neg F] [OfScientific F] (h : Host F M) (t : F)
    (r : Renderer F) (h2 : r.model_objects.length < 2) :
    r.update h t = .error .out_of_bounds := by
  obtain ⟨w, objs⟩ := r
  match objs, h2 with
  | [], _ => simp [Renderer.update]
  | [a], _ => simp [Renderer.update]

/-- The method `update()` leaves the list as it is. -/
lemma update_model_objects [Sub F] [Neg F] [OfScientific F] (h : Host F M) (t : F)
    (r r1 : Renderer F) (c : List (Call F M))
    (hu : r.update h t = .ok (r1, c)) : r1.model_objects = r.model_objects := by
  by_cases h2 : 2 ≤ r.model_objects.length
  · obtain ⟨o, _, hok⟩ := update_ok_of_two h t r h2
    rw [hok] at hu
    simp only [Except.ok.injEq, Prod.mk.injEq] at hu
    rw [← hu.1]
  · rw [update_error_of_lt_two h t r (by omega)] at hu
    cases hu

/-- The method `render_ui()` leaves the list as it is. -/
lemma render_ui_model_objects [Neg F] [Mul F] [Div F] [OfScientific F] (ui : ImGuiInput F)
    (r : Renderer F) : (r.render_ui (M := M) ui).1.model_objects = r.model_objects := by
  unfold Renderer.render_ui
  split <;> rfl

/-- The loop of `render()` issues the calls of each object, in list order. -/
lemma render_objects_eq_flatMap (model view projection : M) (objs : List ModelObject) :
    render_objects (F := F) model view projection objs
      = objs.flatMap (object_calls model view projection) := by
  induction objs with
  | nil => rfl
  | cons o rest ih => simp [render_objects, object_calls, ih]

/-- The loop of `render()` issues no framebuffer clear. -/
lemma render_objects_no_clear (model view projection : M) (objs : List ModelObject) :
    ∀ c ∈ render_objects (F := F) model view projection objs, c.is_clear = false := by
  induction objs with
  | nil => intro c hc; simp [render_objects] at hc
  | cons o rest ih =>
    intro c hc
    simp only [render_objects, List.cons_append, List.nil_append, List.mem_cons] at hc
    rcases hc with rfl | rfl | rfl | rfl | rfl | hc
    · rfl
    · rfl
    · rfl
    · rfl
    · rfl
    · exact ih c hc

/-- The loop of `render()` issues one draw call for each object, in list order. -/
lemma render_objects_drawn (model view projection : M) (objs : List ModelObject) :
    (render_objects (F := F) model view projection objs).filterMap Call.drawn
      = objs.map (fun o => (o.model, o.shader)) := by
  induction objs with
  | nil => rfl
  | cons o rest ih => simp [render_objects, Call.drawn, ih]

/-- The loop of `render()` issues as many draw calls as there are objects. -/
lemma render_objects_draw_count (model view projection : M) (objs : List ModelObject) :
    ((render_objects (F := F) model view projection objs).filter Call.is_draw).length
      = objs.length := by
  induction objs with
  | nil => rfl
  | cons o rest ih => simp [render_objects, Call.is_draw, ih]

variable [Add F] [Sub F] [Mul F] [Div F] [Neg F] [OfScientific F] [IntCast F]

/-- An operation other than `init()` that returns leaves the list as it is. -/
lemma step_model_objects (h : Host F M) (op : Op F) (r r1 : Renderer F) (c : List (Call F M))
    (hop : op.is_init = false) (hs : r.step h op = .ok (r1, c)) :
    r1.model_objects = r.model_objects := by
  cases op with
  | init => simp [Op.is_init] at hop
  | update t => exact update_model_objects h t r r1 c hs
  | render =>
    simp only [Renderer.step, Except.ok.injEq] at hs
    have h1 := congrArg Prod.fst hs
    simp only at h1
    rw [← h1]
    rfl
  | render_ui ui =>
    simp only [Renderer.step, Except.ok.injEq] at hs
    have h1 := congrArg Prod.fst hs
    simp only at h1
    rw [← h1, render_ui_model_objects]

/-- Any operation that returns leaves at least as many entries in the list. -/
lemma step_length_mono (h : Host F M) (op : Op F) (r r1 : Renderer F) (c : List (Call F M))
    (hs : r.step h op = .ok (r1, c)) : r.model_objects.length ≤ r1.model_objects.length := by
  cases hop : op.is_init with
  | false => rw [step_model_objects h op r r1 c hop hs]
  | true =>
    cases op with
    | init =>
      simp only [Renderer.step, Except.ok.injEq] at hs
      have h1 := congrArg Prod.fst hs
      simp only at h1
      rw [← h1, init_length]
      omega
    | update t => simp [Op.is_init] at hop
    | render => simp [Op.is_init] at hop
    | render_ui ui => simp [Op.is_init] at hop

/-- Unfolding `run` on a non-empty sequence that returns. -/
lemma run_cons_ok (h : Host F M) (op : Op F) (ops : List (Op F)) (r r2 : Renderer F)
    (c : List (Call F M)) (hr : Renderer.run h (op :: ops) r = .ok (r2, c)) :
    ∃ r1 c1 c2, r.step h op = .ok (r1, c1) ∧ Renderer.run h ops r1 = .ok (r2, c2) ∧
      c = c1 ++ c2 := by
  simp only [Renderer.run] at hr
  cases hs : r.step h op with
  | error e => rw [hs] at hr; cases hr
  | ok p =>
    obtain ⟨r1, c1⟩ := p
    rw [hs] at hr
    simp only at hr
    cases hr2 : Renderer.run h ops r1 with
    | error e => rw [hr2] at hr; cases hr
    | ok q =>
      obtain ⟨r2', c2⟩ := q
      rw [hr2] at hr
      simp only [Except.ok.injEq, Prod.mk.injEq] at hr
      exact ⟨r1, c1, c2, rfl, by rw [← hr.1]; exact hr2, hr.2.symm⟩

/-- A sequence without `init()` that returns leaves the list as it is. -/
lemma run_model_objects (h : Host F M) (ops : List (Op F)) :
    ∀ (r r2 : Renderer F) (c : List (Call F M)),
      (∀ op ∈ ops, op.is_init = false) → Renderer.run h ops r = .ok (r2, c) →
      r2.model_objects = r.model_objects := by
  induction ops with
  | nil =>
    intro r r2 c _ hr
    simp only [Renderer.run, Except.ok.injEq, Prod.mk.injEq] at hr
    rw [hr.1]
  | cons op ops ih =>
    intro r r2 c hno hr
    obtain ⟨r1, c1, c2, hs, hr2, _⟩ := run_cons_ok h op ops r r2 c hr
    rw [ih r1 r2 c2 (fun o ho => hno o (List.mem_cons_of_mem _ ho)) hr2]
    exact step_model_objects h op r r1 c1 (hno op (List.mem_cons_self _ _)) hs

/-- A sequence that returns leaves at least as many entries in the list. -/
lemma run_length_mono (h : Host F M) (ops : List (Op F)) :
    ∀ (r r2 : Renderer F) (c : List (Call F M)),
      Renderer.run h ops r = .ok (r2, c) →
      r.model_objects.length ≤ r2.model_objects.length := by
  induction ops with
  | nil =>
    intro r r2 c hr
    simp only [Renderer.run, Except.ok.injEq, Prod.mk.injEq] at hr
    rw [hr.1]
  | cons op ops ih =>
    intro r r2 c hr
    obtain ⟨r1, c1, c2, hs, hr2, _⟩ := run_cons_ok h op ops r r2 c hr
    exact le_trans (step_length_mono h op r r1 c1 hs) (ih r1 r2 c2 hr2)

/-- After a step that returns, the rest of the sequence decides whether `run` returns. -/
lemma run_cons_of_step_ok (h : Host F M) (op : Op F) (ops : List (Op F)) (r r1 : Renderer F)
    (c1 : List (Call F M)) (hs : r.step h op = .ok (r1, c1)) :
    (∃ res, Renderer.run h (op :: ops) r = .ok res) ↔ ∃ res, Renderer.run h ops r1 = .ok res := by
  constructor
  · rintro ⟨⟨r2, c⟩, hr⟩
    obtain ⟨r1', c1', c2, hs', hr2, _⟩ := run_cons_ok h op ops r r2 c hr
    rw [hs] at hs'
    simp only [Except.ok.injEq, Prod.mk.injEq] at hs'
    exact ⟨(r2, c2), by rw [hs'.1]; exact hr2⟩
  · rintro ⟨⟨r2, c2⟩, hr2⟩
    exact ⟨(r2, c1 ++ c2), by simp only [Renderer.run, hs, hr2]⟩

/-- A sequence without `init()` on a list with fewer than two entries returns exactly when it
holds no `update()`. -/
lemma run_ok_iff_no_update (h : Host F M) (ops : List (Op F)) :
    ∀ r : Renderer F, r.model_objects.length < 2 → (∀ op ∈ ops, op.is_init = false) →
      ((∃ res, Renderer.run h ops r = .ok res) ↔ ∀ op ∈ ops, op.is_update = false) := by
  induction ops with
  | nil => intro r _ _; simp [Renderer.run]
  | cons op ops ih =>
    intro r hlt hno
    have hno' : ∀ o ∈ ops, o.is_init = false := fun o ho => hno o (List.mem_cons_of_mem _ ho)
    cases op with
    | init => simpa [Op.is_init] using hno Op.init (List.mem_cons_self _ _)
    | update t =>
      have he : Renderer.run h (Op.update t :: ops) r = .error .out_of_bounds := by
        simp only [Renderer.run, Renderer.step, update_error_of_lt_two h t r hlt]
      simp [he, Op.is_update]
    | render =>
      rw [run_cons_of_step_ok h Op.render ops r r _ rfl, ih r hlt hno']
      simp [Op.is_update]
    | render_ui ui =>
      have hl : (r.render_ui (M := M) ui).1.model_objects.length < 2 := by
        rw [render_ui_model_objects]; exact hlt
      rw [run_cons_of_step_ok h (Op.render_ui ui) ops r (r.render_ui ui).1 (r.render_ui ui).2 rfl,
        ih _ hl hno']
      simp [Op.is_update]

/-- Every sequence returns on a list with at least two entries. -/
lemma run_ok_of_two (h : Host F M) (ops : List (Op F)) :
    ∀ r : Renderer F, 2 ≤ r.model_objects.length → ∃ res, Renderer.run h ops r = .ok res := by
  induction ops with
  | nil => intro r _; exact ⟨(r, []), rfl⟩
  | cons op ops ih =>
    intro r h2
    have key : ∃ r1 c1, r.step h op = .ok (r1, c1) := by
      cases op with
      | init => exact ⟨_, _, rfl⟩
      | update t =>
        obtain ⟨o, _, hok⟩ := update_ok_of_two h t r h2
        exact ⟨_, _, hok⟩
      | render => exact ⟨_, _, rfl⟩
      | render_ui ui => exact ⟨_, _, rfl⟩
    obtain ⟨r1, c1, hs⟩ := key
    rw [run_cons_of_step_ok h op ops r r1 c1 hs]
    exact ih r1 (le_trans h2 (step_length_mono h op r r1 c1 hs))

/-- A sequence holding an `init()` that returns leaves at least two entries in the list. -/
lemma run_with_init_length (h : Host F M) (ops : List (Op F)) :
    ∀ (r r2 : Renderer F) (c : List (Call F M)), (∃ op ∈ ops, op.is_init = true) →
      Renderer.run h ops r = .ok (r2, c) → 2 ≤ r2.model_objects.length := by
  induction ops with
  | nil => intro r r2 c hex; simp at hex
  | cons op ops ih =>
    intro r r2 c hex hr
    obtain ⟨r1, c1, c2, hs, hr2, _⟩ := run_cons_ok h op ops r r2 c hr
    cases hop : op.is_init with
    | true =>
      cases op with
      | init =>
        simp only [Renderer.step, Except.ok.injEq] at hs
        have h1 := congrArg Prod.fst hs
        simp only at h1
        have h3 := run_length_mono h ops r1 r2 c2 hr2
        rw [← h1, init_length] at h3
        omega
      | update t => simp [Op.is_init] at hop
      | render => simp [Op.is_init] at hop
      | render_ui ui => simp [Op.is_init] at hop
    | false =>
      obtain ⟨o, ho, hoi⟩ := hex
      rcases List.mem_cons.mp ho with rfl | ho'
      · rw [hop] at hoi; cases hoi
      · exact ih r1 r2 c2 ⟨o, ho', hoi⟩ hr2

end Lemmas

/-! The claims. -/

section Claims

variable {F M : Type}

/-- C1: constructing a Renderer fails, logging the message and terminating the process, if and
only if the window pointer is null; for every non-null window the constructor returns normally
with that same window stored as the renderer's window. -/
theorem C1_constructor_fails_iff_null :
    (∀ window : Option (Window F),
        (∃ e, Renderer.new window = .error e) ↔ window = none) ∧
    Renderer.new (none : Option (Window F))
      = .error (.terminate "Invalid Window* passed into Renderer constructor") ∧
    (∀ w : Window F, ∃ r, Renderer.new (some w) = .ok r ∧ r.window = w) := by
  refine ⟨?_, rfl, fun w => ⟨_, rfl, rfl⟩⟩
  intro window
  cases window with
  | none => simp [Renderer.new]
  | some w => simp [Renderer.new]

/-- C3, as stated, fails: after a second `init()` on the renderer constructed on `demoWindow`
the drawable list has four entries, not two. -/
theorem C3_counterexample_second_init :
    Renderer.new (some demoWindow) = .ok demoFresh ∧
    demoReady = (demoFresh.init demoHost).1 ∧
    (demoReady.init demoHost).1.model_objects.length = 4 ∧
    ¬ (demoReady.init demoHost).1.model_objects.length = 2 := by
  refine ⟨rfl, rfl, ?_, ?_⟩
  · rw [init_length, demoReady, init_length]; rfl
  · rw [init_length, demoReady, init_length]; simp [demoFresh]

/-- C3, amended: `init()` appends exactly two entries to the drawable list, so after `init()`
on a newly constructed renderer the list has exactly two entries. -/
theorem C3_init_appends_two (h : Host F M) :
    (∀ r : Renderer F, (r.init h).1.model_objects.length = r.model_objects.length + 2) ∧
    (∀ w : Window F, ∃ r, Renderer.new (some w) = .ok r ∧
      (r.init h).1.model_objects.length = 2) :=
  ⟨init_length h, fun w => ⟨{ window := w, model_objects := [] }, rfl, by rw [init_length]; rfl⟩⟩

/-- C4: for every renderer state and window state, `render()` leaves the window (times,
camera, lighting parameters, size) and the drawable list as they were, and issues the
framebuffer clear first and the draw calls, one for each drawable object, after it. -/
theorem C4_render_keeps_window_state [Add F] [Div F] [OfScientific F] [IntCast F]
    (h : Host F M) (r : Renderer F) :
    (r.render h).1.window = r.window ∧
    (r.render h).1.window.state = r.window.state ∧
    (r.render h).1.window.width = r.window.width ∧
    (r.render h).1.window.height = r.window.height ∧
    (r.render h).1.model_objects = r.model_objects ∧
    ∃ rest, (r.render h).2 =
        .glClearColor 0.05 0.05 0.05 1.0 ::
        .glClear (GL_COLOR_BUFFER_BIT ||| GL_DEPTH_BUFFER_BIT) ::
        .glEnable GL_DEPTH_TEST :: rest ∧
      (∀ c ∈ rest, c.is_clear = false) ∧
      (rest.filter Call.is_draw).length = r.model_objects.length :=
  ⟨rfl, rfl, rfl, rfl, rfl, _, rfl, render_objects_no_clear _ _ _ _,
    render_objects_draw_count _ _ _ _⟩

/-- C8: for every drawable list of length n, `render()` clears the framebuffer once and then,
for each entry in list order, activates that entry's shader, sets its `model`, `view` and
`projection` uniforms and draws that entry's model with that shader once: n draw calls, with
the same three matrices for every entry. -/
theorem C8_render_call_sequence [Add F] [Div F] [OfScientific F] [IntCast F]
    (h : Host F M) (r : Renderer F) :
    (r.render h).2 =
      [ .glClearColor 0.05 0.05 0.05 1.0,
        .glClear (GL_COLOR_BUFFER_BIT ||| GL_DEPTH_BUFFER_BIT),
        .glEnable GL_DEPTH_TEST ]
      ++ r.model_objects.flatMap (object_calls
          (h.scale (h.translate (h.mat4 1.0) (Vec3.splat 1.0)) (Vec3.splat 1.0))
          (h.lookAt r.window.state.camera_pos
            (r.window.state.camera_pos.add r.window.state.camera_front)
            r.window.state.camera_up)
          (h.perspective (h.radians r.window.state.fov)
            ((r.window.width : F) / (r.window.height : F)) 0.1 100.0)) ∧
    ((r.render h).2.filter Call.is_clear).length = 1 ∧
    ((r.render h).2.filter Call.is_draw).length = r.model_objects.length ∧
    (r.render h).2.filterMap Call.drawn = r.model_objects.map (fun o => (o.model, o.shader)) := by
  have hr : (r.render h).2 =
      .glClearColor 0.05 0.05 0.05 1.0 ::
      .glClear (GL_COLOR_BUFFER_BIT ||| GL_DEPTH_BUFFER_BIT) ::
      .glEnable GL_DEPTH_TEST ::
      render_objects
        (h.scale (h.translate (h.mat4 1.0) (Vec3.splat 1.0)) (Vec3.splat 1.0))
        (h.lookAt r.window.state.camera_pos
          (r.window.state.camera_pos.add r.window.state.camera_front) r.window.state.camera_up)
        (h.perspective (h.radians r.window.state.fov)
          ((r.window.width : F) / (r.window.height : F)) 0.1 100.0) r.model_objects := rfl
  refine ⟨?_, ?_, ?_, ?_⟩
  · rw [hr, render_objects_eq_flatMap]; rfl
  · rw [hr]
    have h0 : ∀ (m v q : M), (render_objects (F := F) m v q r.model_objects).filter
        Call.is_clear = [] := by
      intro m v q
      rw [List.filter_eq_nil_iff]
      intro c hc
      rw [render_objects_no_clear m v q r.model_objects c hc]
      simp
    simp [List.filter_cons, Call.is_clear, h0]
  · rw [hr]
    simp [List.filter_cons, Call.is_draw, render_objects_draw_count]
  · rw [hr]
    simp [List.filterMap_cons, Call.drawn, render_objects_drawn]

/-- C5: for every window state and every clock reading `t`, `update()` returns (the list
having an entry at index 1) and leaves `delta_time = curr_time - prev_time`, where the new
`curr_time` is `t` and the new `prev_time` is the `curr_time` from before the call. -/
theorem C5_update_delta_time [Sub F] [Neg F] [OfScientific F] (h : Host F M) (t : F)
    (r : Renderer F) (h2 : 2 ≤ r.model_objects.length) :
    ∃ r1 c, r.update h t = .ok (r1, c) ∧
      r1.window.state.curr_time = t ∧
      r1.window.state.prev_time = r.window.state.curr_time ∧
      r1.window.state.delta_time = r1.window.state.curr_time - r1.window.state.prev_time := by
  obtain ⟨o, _, hok⟩ := update_ok_of_two h t r h2
  exact ⟨_, _, hok, rfl, rfl, rfl⟩

/-- C5, on the initialised demo renderer at clock reading 7, its `curr_time` being 5. -/
theorem C5_update_delta_time_witness :
    2 ≤ demoReady.model_objects.length ∧
    ∃ r1 c, demoReady.update demoHost 7 = .ok (r1, c) ∧
      r1.window.state.curr_time = 7 ∧
      r1.window.state.prev_time = demoReady.window.state.curr_time ∧
      r1.window.state.delta_time = r1.window.state.curr_time - r1.window.state.prev_time :=
  ⟨by decide, C5_update_delta_time demoHost 7 demoReady (by decide)⟩

/-- C9: `update()` writes only the `curr_time`, `prev_time` and `delta_time` fields of the
window state: every other field of the window has its value from before the call, and the
drawable list is the same list. -/
theorem C9_update_writes_only_times [Sub F] [Neg F] [OfScientific F] (h : Host F M) (t : F)
    (r : Renderer F) (h2 : 2 ≤ r.model_objects.length) :
    ∃ r1 c, r.update h t = .ok (r1, c) ∧
      r1.window.state = { r.window.state with
        curr_time := r1.window.state.curr_time,
        prev_time := r1.window.state.prev_time,
        delta_time := r1.window.state.delta_time } ∧
      r1.window.ptr = r.window.ptr ∧
      r1.window.width = r.window.width ∧
      r1.window.height = r.window.height ∧
      r1.window.state.camera_pos = r.window.state.camera_pos ∧
      r1.window.state.camera_front = r.window.state.camera_front ∧
      r1.window.state.shininess = r.window.state.shininess ∧
      r1.window.state.dirlight_ambient = r.window.state.dirlight_ambient ∧
      r1.window.state.dirlight_diffuse = r.window.state.dirlight_diffuse ∧
      r1.window.state.dirlight_specular = r.window.state.dirlight_specular ∧
      r1.window.state.pointlight_ambient = r.window.state.pointlight_ambient ∧
      r1.window.state.pointlight_diffuse = r.window.state.pointlight_diffuse ∧
      r1.window.state.pointlight_specular = r.window.state.pointlight_specular ∧
      r1.window.state.spotlight_ambient = r.window.state.spotlight_ambient ∧
      r1.window.state.spotlight_diffuse = r.window.state.spotlight_diffuse ∧
      r1.window.state.spotlight_specular = r.window.state.spotlight_specular ∧
      r1.window.state.cutoff = r.window.state.cutoff ∧
      r1.window.state.outer_cutoff = r.window.state.outer_cutoff ∧
      r1.window.state.show_debug = r.window.state.show_debug ∧
      r1.model_objects = r.model_objects := by
  obtain ⟨o, _, hok⟩ := update_ok_of_two h t r h2
  exact ⟨_, _, hok, rfl, rfl, rfl, rfl, rfl, rfl, rfl, rfl, rfl, rfl, rfl, rfl, rfl, rfl, rfl,
    rfl, rfl, rfl, rfl, rfl⟩

/-- C9, on the initialised demo renderer at clock reading 7. -/
theorem C9_update_writes_only_times_witness :
    2 ≤ demoReady.model_objects.length ∧
    ∃ r1 c, demoReady.update demoHost 7 = .ok (r1, c) ∧
      r1.window.state.camera_pos = demoState.camera_pos ∧
      r1.window.state.shininess = 32 ∧
      r1.window.state.show_debug = true ∧
      r1.model_objects = demoReady.model_objects := by
  refine ⟨by decide, ?_⟩
  obtain ⟨r1, c, hu, _, _, _, _, hcp, _, hsh, _, _, _, _, _, _, _, _, _, _, _, hsd, hmo⟩ :=
    C9_update_writes_only_times demoHost 7 demoReady (by decide)
  exact ⟨r1, c, hu, hcp, hsh, hsd, hmo⟩

/-- C7: each `update()` on a list whose entry at index 1 is `o` activates the shader of `o`
and uploads to it, and to no other shader, the material shininess, one directional light
(`dirLight.*`), the view position, four point lights `pointLights[0]` to `pointLights[3]` at
four fixed positions with constant 1.0, linear 0.09 and quadratic 0.032, and one spotlight
(`spotLight.*`) at the camera position along the camera front; the colours are the current
window-state parameters. -/
theorem C7_update_lighting_uploads [Sub F] [Neg F] [OfScientific F] (h : Host F M) (t : F)
    (r : Renderer F) (o : ModelObject) (ho : r.model_objects[1]? = some o) :
    ∃ r1 c, r.update h t = .ok (r1, c) ∧
      (∀ call ∈ c, call.target = some o.shader) ∧
      c =
      [ .shader_use o.shader,
        .shader_set o.shader "material.shininess" (.float r.window.state.shininess),
        .shader_set o.shader "dirLight.direction" (.vec3 ⟨-0.2, -1.0, -0.3⟩),
        .shader_set o.shader "dirLight.ambient" (.vec3 r.window.state.dirlight_ambient),
        .shader_set o.shader "dirLight.diffuse" (.vec3 r.window.state.dirlight_diffuse),
        .shader_set o.shader "dirLight.specular" (.vec3 r.window.state.dirlight_specular),
        .shader_set o.shader "viewPos" (.vec3 r.window.state.camera_pos) ]
      ++ [
        .shader_set o.shader "pointLights[0].position" (.vec3 ⟨0.7, 0.2, 2.0⟩),
        .shader_set o.shader "pointLights[0].ambient" (.vec3 r.window.state.pointlight_ambient),
        .shader_set o.shader "pointLights[0].diffuse" (.vec3 r.window.state.pointlight_diffuse),
        .shader_set o.shader "pointLights[0].specular"
          (.vec3 r.window.state.pointlight_specular),
        .shader_set o.shader "pointLights[0].constant" (.float 1.0),
        .shader_set o.shader "pointLights[0].linear" (.float 0.09),
        .shader_set o.shader "pointLights[0].quadratic" (.float 0.032) ]
      ++ [
        .shader_set o.shader "pointLights[1].position" (.vec3 ⟨2.3, -3.3, -4.0⟩),
        .shader_set o.shader "pointLights[1].ambient" (.vec3 r.window.state.pointlight_ambient),
        .shader_set o.shader "pointLights[1].diffuse" (.vec3 r.window.state.pointlight_diffuse),
        .shader_set o.shader "pointLights[1].specular"
          (.vec3 r.window.state.pointlight_specular),
        .shader_set o.shader "pointLights[1].constant" (.float 1.0),
        .shader_set o.shader "pointLights[1].linear" (.float 0.09),
        .shader_set o.shader "pointLights[1].quadratic" (.float 0.032) ]
      ++ [
        .shader_set o.shader "pointLights[2].position" (.vec3 ⟨-4.0, 2.0, -12.0⟩),
        .shader_set o.shader "pointLights[2].ambient" (.vec3 r.window.state.pointlight_ambient),
        .shader_set o.shader "pointLights[2].diffuse" (.vec3 r.window.state.pointlight_diffuse),
        .shader_set o.shader "pointLights[2].specular"
          (.vec3 r.window.state.pointlight_specular),
        .shader_set o.shader "pointLights[2].constant" (.float 1.0),
        .shader_set o.shader "pointLights[2].linear" (.float 0.09),
        .shader_set o.shader "pointLights[2].quadratic" (.float 0.032) ]
      ++ [
        .shader_set o.shader "pointLights[3].position" (.vec3 ⟨0.0, 0.0, -3.0⟩),
        .shader_set o.shader "pointLights[3].ambient" (.vec3 r.window.state.pointlight_ambient),
        .shader_set o.shader "pointLights[3].diffuse" (.vec3 r.window.state.pointlight_diffuse),
        .shader_set o.shader "pointLights[3].specular"
          (.vec3 r.window.state.pointlight_specular),
        .shader_set o.shader "pointLights[3].constant" (.float 1.0),
        .shader_set o.shader "pointLights[3].linear" (.float 0.09),
        .shader_set o.shader "pointLights[3].quadratic" (.float 0.032) ]
      ++ [
        .shader_set o.shader "spotLight.position" (.vec3 r.window.state.camera_pos),
        .shader_set o.shader "spotLight.direction" (.vec3 r.window.state.camera_front),
        .shader_set o.shader "spotLight.cutoff"
          (.float (h.cos (h.radians r.window.state.cutoff))),
        .shader_set o.shader "spotLight.outerCutoff"
          (.float (h.cos (h.radians r.window.state.outer_cutoff))),
        .shader_set o.shader "spotLight.ambient" (.vec3 r.window.state.spotlight_ambient),
        .shader_set o.shader "spotLight.diffuse" (.vec3 r.window.state.spotlight_diffuse),
        .shader_set o.shader "spotLight.specular" (.vec3 r.window.state.spotlight_specular),
        .shader_set o.shader "spotLight.constant" (.float 1.0),
        .shader_set o.shader "spotLight.linear" (.float 0.09),
        .shader_set o.shader "spotLight.quadratic" (.float 0.032) ] := by
  have h2 : 2 ≤ r.model_objects.length := by
    rcases List.getElem?_eq_some_iff.mp ho with ⟨hlt, _⟩
    omega
  obtain ⟨o1, ho1, hok⟩ := update_ok_of_two h t r h2
  rw [ho] at ho1
  cases ho1
  refine ⟨_, _, hok, ?_, rfl⟩
  intro call hc
  have hall : (lighting_calls h o.shader (updated_state t r.window.state)).map Call.target
      = List.replicate 45 (some o.shader) := rfl
  have hm : call.target ∈ List.replicate 45 (some o.shader) := by
    rw [← hall]; exact List.mem_map_of_mem _ hc
  exact List.eq_of_mem_replicate hm

/-- C7, on the initialised demo renderer, whose entry at index 1 is the container object. -/
theorem C7_update_lighting_uploads_witness :
    demoReady.model_objects[1]? = some
      ⟨⟨"assets/shaders/vertex.glsl", "assets/shaders/box_fragment.glsl"⟩,
        Model.empty.add_mesh Mesh.generate_cube_mesh⟩ ∧
    ∃ r1 c, demoReady.update demoHost 7 = .ok (r1, c) ∧
      (∀ call ∈ c, call.target
        = some ⟨"assets/shaders/vertex.glsl", "assets/shaders/box_fragment.glsl"⟩) ∧
      c.length = 45 := by
  have ho : demoReady.model_objects[1]? = some
      ⟨⟨"assets/shaders/vertex.glsl", "assets/shaders/box_fragment.glsl"⟩,
        Model.empty.add_mesh Mesh.generate_cube_mesh⟩ := by decide
  refine ⟨ho, ?_⟩
  obtain ⟨r1, c, hu, ht, hc⟩ := C7_update_lighting_uploads demoHost 7 demoReady _ ho
  exact ⟨r1, c, hu, ht, by rw [hc]; rfl⟩

/-- C6: after `init()` on a newly constructed renderer the list is the backpack entry followed
by the container entry. The entry at index 0 pairs the model shader with the backpack model;
the entry at index 1 pairs the container shader (`vertex.glsl`, `box_fragment.glsl`) with a
model holding exactly one mesh, the generated cube; and `init()` sets `material.diffuse` and
`material.specular` of the container shader to the indices of the two container textures. -/
theorem C6_init_entries (h : Host F M) (w : Window F) :
    ∃ r, Renderer.new (some w) = .ok r ∧
      (r.init h).1.model_objects =
        [ { shader := ⟨"assets/shaders/model_vertex.glsl", "assets/shaders/model_fragment.glsl"⟩,
            model := Model.load "assets/models/backpack/backpack.obj" },
          { shader := ⟨"assets/shaders/vertex.glsl", "assets/shaders/box_fragment.glsl"⟩,
            model := { path := none, meshes := [Mesh.generate_cube_mesh] } } ] ∧
      (r.init h).1.model_objects[1]? = some
          { shader := ⟨"assets/shaders/vertex.glsl", "assets/shaders/box_fragment.glsl"⟩,
            model := { path := none, meshes := [Mesh.generate_cube_mesh] } } ∧
      (r.init h).2 =
        [ .shader_use ⟨"assets/shaders/vertex.glsl", "assets/shaders/box_fragment.glsl"⟩,
          .shader_set ⟨"assets/shaders/vertex.glsl", "assets/shaders/box_fragment.glsl"⟩
            "material.diffuse"
            (.int (Texture.load h "assets/textures/container2.png").index),
          .shader_set ⟨"assets/shaders/vertex.glsl", "assets/shaders/box_fragment.glsl"⟩
            "material.specular"
            (.int (Texture.load h "assets/textures/container2_specular.png").index) ]
        ++ init_imgui_calls w :=
  ⟨{ window := w, model_objects := [] }, rfl, rfl, rfl, rfl⟩

variable [Add F] [Sub F] [Mul F] [Div F] [Neg F] [OfScientific F] [IntCast F]

/-- C2: for every valid window, a newly constructed Renderer has an empty drawable list, and
after any sequence of operations without `init()` the list is still empty. Such a sequence
runs to its end exactly when it holds no `update()`, which faults on the empty list. -/
theorem C2_list_empty_until_init (h : Host F M) (w : Window F) (ops : List (Op F))
    (hno : ∀ op ∈ ops, op.is_init = false) :
    ∃ r, Renderer.new (some w) = .ok r ∧ r.model_objects = [] ∧
      (∀ r2 c, Renderer.run h ops r = .ok (r2, c) → r2.model_objects = []) ∧
      ((∃ res, Renderer.run h ops r = .ok res) ↔ ∀ op ∈ ops, op.is_update = false) := by
  refine ⟨{ window := w, model_objects := [] }, rfl, rfl, ?_, ?_⟩
  · intro r2 c hr
    exact run_model_objects h ops _ r2 c hno hr
  · exact run_ok_iff_no_update h ops _ (by simp) hno

/-- C2, on two frames drawn on `demoWindow` without `init()`. -/
theorem C2_list_empty_until_init_witness :
    (∀ op ∈ demoFrames, op.is_init = false) ∧
    ∃ r, Renderer.new (some demoWindow) = .ok r ∧ r.model_objects = [] ∧
      (∀ r2 c, Renderer.run demoHost demoFrames r = .ok (r2, c) → r2.model_objects = []) ∧
      ((∃ res, Renderer.run demoHost demoFrames r = .ok res) ↔
        ∀ op ∈ demoFrames, op.is_update = false) :=
  ⟨by simp [demoFrames, Op.is_init],
   C2_list_empty_until_init demoHost demoWindow demoFrames (by simp [demoFrames, Op.is_init])⟩

/-- C10: `update()` reads the drawable list at the fixed index 1: it returns exactly when the
list has at least two entries and is out of bounds exactly when it has fewer. The access is in
bounds in every state reached from a constructed renderer by operations that include `init()`
(and every sequence starting with `init()` runs to its end), and out of bounds in every state
reached without `init()`, the constructed renderer itself among them. -/
theorem C10_update_index_in_bounds (h : Host F M) :
    (∀ (t : F) (r : Renderer F),
      (∃ res, r.update h t = .ok res) ↔ 2 ≤ r.model_objects.length) ∧
    (∀ (t : F) (r : Renderer F),
      r.update h t = .error .out_of_bounds ↔ r.model_objects.length < 2) ∧
    (∀ (w : Window F) (r0 : Renderer F) (ops : List (Op F)) (r : Renderer F)
        (c : List (Call F M)),
      Renderer.new (some w) = .ok r0 → (∃ op ∈ ops, op.is_init = true) →
      Renderer.run h ops r0 = .ok (r, c) →
      2 ≤ r.model_objects.length ∧ ∀ t : F, ∃ res, r.update h t = .ok res) ∧
    (∀ (w : Window F) (r0 : Renderer F) (ops : List (Op F)),
      Renderer.new (some w) = .ok r0 → ∃ res, Renderer.run h (Op.init :: ops) r0 = .ok res) ∧
    (∀ (w : Window F) (r0 : Renderer F) (ops : List (Op F)) (r : Renderer F)
        (c : List (Call F M)),
      Renderer.new (some w) = .ok r0 → (∀ op ∈ ops, op.is_init = false) →
      Renderer.run h ops r0 = .ok (r, c) →
      ∀ t : F, r.update h t = .error .out_of_bounds) ∧
    (∀ (w : Window F) (t : F),
      ∃ r0, Renderer.new (some w) = .ok r0 ∧ r0.update h t = .error .out_of_bounds) := by
  have hok : ∀ (t : F) (r : Renderer F),
      (∃ res, r.update h t = .ok res) ↔ 2 ≤ r.model_objects.length := by
    intro t r
    constructor
    · rintro ⟨res, hres⟩
      by_contra hlt
      rw [update_error_of_lt_two h t r (by omega)] at hres
      cases hres
    · intro h2
      obtain ⟨o, _, hu⟩ := update_ok_of_two h t r h2
      exact ⟨_, hu⟩
  have hnew : ∀ (w : Window F) (r0 : Renderer F), Renderer.new (some w) = .ok r0 →
      r0.model_objects = [] := by
    intro w r0 hr0
    simp only [Renderer.new, Except.ok.injEq] at hr0
    rw [← hr0]
  refine ⟨hok, ?_, ?_, ?_, ?_, ?_⟩
  · intro t r
    constructor
    · intro he
      by_contra hge
      obtain ⟨res, hres⟩ := (hok t r).mpr (by omega)
      rw [he] at hres
      cases hres
    · exact update_error_of_lt_two h t r
  · intro w r0 ops r c _ hex hr
    have h2 := run_with_init_length h ops r0 r c hex hr
    exact ⟨h2, fun t => (hok t r).mpr h2⟩
  · intro w r0 ops _
    rw [run_cons_of_step_ok h Op.init ops r0 (r0.init h).1 (r0.init h).2 rfl]
    exact run_ok_of_two h ops _ (by rw [init_length]; omega)
  · intro w r0 ops r c hr0 hno hr t
    apply update_error_of_lt_two
    rw [run_model_objects h ops r0 r c hno hr, hnew w r0 hr0]
    simp
  · intro w t
    exact ⟨{ window := w, model_objects := [] }, rfl, update_error_of_lt_two h t _ (by simp)⟩

/-- C10, on the demo window: the session `init(), update(), render(), render_ui()` runs to its
end with `update()` in bounds, and `update()` on the constructed renderer is out of bounds. -/
theorem C10_update_index_in_bounds_witness :
    Renderer.new (some demoWindow) = .ok demoFresh ∧
    (∃ op ∈ demoSession, op.is_init = true) ∧
    (∃ r c, Renderer.run demoHost demoSession demoFresh = .ok (r, c) ∧
      2 ≤ r.model_objects.length ∧ ∀ t : ℚ, ∃ res, r.update demoHost t = .ok res) ∧
    demoFresh.update demoHost 7 = .error .out_of_bounds := by
  have hnew : Renderer.new (some demoWindow) = .ok demoFresh := rfl
  have hex : ∃ op ∈ demoSession, op.is_init = true :=
    ⟨Op.init, by simp [demoSession], rfl⟩
  obtain ⟨⟨r, c⟩, hr⟩ :=
    (C10_update_index_in_bounds demoHost).2.2.2.1 demoWindow demoFresh
      [.update 7, .render, .render_ui demoIdle] hnew
  refine ⟨hnew, hex, ⟨r, c, hr, ?_⟩, ?_⟩
  · exact (C10_update_index_in_bounds demoHost).2.2.1 demoWindow demoFresh demoSession r c
      hnew hex hr
  · exact ((C10_update_index_in_bounds demoHost).2.1 7 demoFresh).mpr (by decide)

end Claims

end VoxelEngine
